import Mathlib

/-!
Shallow embedding of `src/mysql_connection.cpp` (duckdb-mysql): the
`MySQLConnection` class — move construction/assignment, `Open`, `MySQLExecute`,
`QueryInternal`, `Query`, `Execute`, `IsOpen`, `Close`, and the process-wide
debug-print flag — together with the transport layer it calls (the MySQL
client library), modelled as an explicit response record, and the caller-facing
`MySQLResult` variants.

Conventions of the embedding:
  * `MYSQL_RES *` handles are `Nat` identifiers; a null pointer is `Option.none`.
  * A C++ `throw IOException(...)` is `Except.error (MySQLError.IOException msg)`
    where `msg` is the formatted message the source builds.
  * The transport behaviour for one query submission (return value of
    `mysql_real_query`, `mysql_error`, `mysql_store_result`/`mysql_use_result`,
    `mysql_field_count`, `mysql_affected_rows`, `mysql_fetch_field_direct`) is a
    `TransportResponse` record passed in explicitly.  For a given successful
    statement, `mysql_store_result` and `mysql_use_result` return a non-null
    handle under the same condition (the statement produced a row set), so the
    handle is a single `Option Nat` independent of the streaming choice.
  * Side effects visible outside the call (diagnostic printing, transport
    submission, releasing a response handle) are recorded as an ordered
    `List Event` trace returned alongside the result.
-/

namespace MySQLSpec

/-- One field descriptor as reported by the transport
(`mysql_fetch_field_direct(result, i)` yields `{name, name_length, type}`).
A null `name` pointer is `none`. The server-side type code is an opaque `Nat`. -/
structure MySQLFieldInfo where
  name : Option String
  name_length : Nat
  serverType : Nat
  deriving DecidableEq, Repr

/-- The transport layer's behaviour for one query submission on the session:
the return code of `mysql_real_query`, the diagnostic string `mysql_error(con)`,
the response handle produced by `mysql_store_result`/`mysql_use_result`
(`none` = null), the column count `mysql_field_count(con)`, the counter
`mysql_affected_rows(con)`, and the per-column descriptors. -/
structure TransportResponse where
  submitResult : Int
  errorMsg : String
  responseHandle : Option Nat
  fieldCount : Nat
  affectedRows : Nat
  fields : Nat → MySQLFieldInfo

/-- A field descriptor of a tabular result (`MySQLField` in the source):
a name (default-initialized to the empty string) and the translated host
logical type (opaque `Nat`). -/
structure MySQLField where
  name : String
  type : Nat
  deriving DecidableEq, Repr

/-- The error class thrown by the source (`IOException`); the spec calls it
ConnectionError.  Carries the formatted message. -/
inductive MySQLError where
  | IOException (msg : String)
  deriving DecidableEq, Repr

/-- The caller-facing result (`MySQLResult`).  Three construction shapes appear
in the source: count-only (`MySQLResult(affected_rows)`), tabular without
resolved fields (`MySQLResult(result, field_count, streaming, *this)`), and
tabular with resolved fields (`MySQLResult(result, fields, streaming, *this)`). -/
inductive MySQLResult where
  | countOnly (affectedRows : Nat)
  | tabularRaw (handle : Nat) (fieldCount : Nat) (streaming : Bool)
  | tabular (handle : Nat) (fields : List MySQLField) (streaming : Bool)
  deriving DecidableEq, Repr

/-- `MySQLResultStreaming` from the source. -/
inductive MySQLResultStreaming where
  | ALLOW_STREAMING
  | FORCE_MATERIALIZATION
  deriving DecidableEq, Repr, BEq

/-- Externally visible events of one call, in order: a line written to the
diagnostic sink (`Printer::Print`), a query submitted to the transport
(`mysql_real_query`), a response handle released back to the transport
(`mysql_free_result`). -/
inductive Event where
  | print (s : String)
  | submit (q : String)
  | free (h : Nat)
  deriving DecidableEq, Repr

/-- The initializer of the process-wide flag:
`static bool debug_mysql_print_queries = false;`. -/
def debug_mysql_print_queries_default : Bool := false

/-- `MySQLConnection::MySQLExecute(query, streaming)`:
if the debug flag is set, print the query followed by a newline; submit the
query (`mysql_real_query`); on a nonzero return code throw an `IOException`
whose message embeds the query text and `mysql_error(con)`; otherwise return
the response handle (`streaming ? mysql_use_result(con) : mysql_store_result(con)`
— both produce `resp.responseHandle` in this model, see the header note).
The flag and the transport behaviour are explicit arguments. -/
def MySQLExecute (debugFlag : Bool) (resp : TransportResponse)
    (query : String) (streaming : Bool) :
    Except MySQLError (Option Nat) × List Event :=
  let printed : List Event :=
    if debugFlag then [Event.print (query ++ "\n")] else []
  let trace := printed ++ [Event.submit query]
  if resp.submitResult ≠ 0 then
    (Except.error (MySQLError.IOException
      ("Failed to run query \"" ++ (query ++ ("\": " ++ (resp.errorMsg ++ "\n"))))),
     trace)
  else
    (Except.ok resp.responseHandle, trace)

/-- The loop body of `QueryInternal`'s field-resolution loop, iterated for
`i = start, start+1, ...` over `remaining` columns: fetch the descriptor
(`mysql_fetch_field_direct`), set the name when the name pointer is non-null
and `name_length > 0` (the C++ `string(field->name, field->name_length)` takes
the first `name_length` characters), translate the type
(`MySQLUtils::FieldToLogicalType`, which may throw), and collect the fields in
order.  `translate` is the supplied translation capability. -/
def buildFields (translate : MySQLFieldInfo → Except MySQLError Nat)
    (fieldInfo : Nat → MySQLFieldInfo) :
    (start : Nat) → (remaining : Nat) → Except MySQLError (List MySQLField)
  | _, 0 => Except.ok []
  | i, Nat.succ k =>
    let fi := fieldInfo i
    let nm : String :=
      match fi.name with
      | some s => if fi.name_length > 0 then s.take fi.name_length else ("")
      | none => ""
    match translate fi with
    | Except.error e => Except.error e
    | Except.ok t =>
      match buildFields translate fieldInfo (i + 1) k with
      | Except.error e => Except.error e
      | Except.ok rest => Except.ok (MySQLField.mk nm t :: rest)

/-- `MySQLConnection::QueryInternal(query, streaming, context)`:
run `MySQLExecute`; fetch `mysql_field_count`; if the handle is null, either
throw (`field_count != 0`) or build a count-only result from
`mysql_affected_rows`; if the handle is non-null, either hand back the raw
handle and field count (no context) or resolve one `MySQLField` per column
via the translation capability.  The supplied context is modelled by the
translation capability itself (`optional_ptr<ClientContext>` becomes
`Option (MySQLFieldInfo → Except MySQLError Nat)`). -/
def QueryInternal (debugFlag : Bool) (resp : TransportResponse)
    (context : Option (MySQLFieldInfo → Except MySQLError Nat))
    (query : String) (streaming : MySQLResultStreaming) :
    Except MySQLError MySQLResult × List Event :=
  let result_streaming : Bool := streaming == MySQLResultStreaming.ALLOW_STREAMING
  match MySQLExecute debugFlag resp query result_streaming with
  | (Except.error e, trace) => (Except.error e, trace)
  | (Except.ok h, trace) =>
    let field_count := resp.fieldCount
    match h with
    | none =>
      if field_count ≠ 0 then
        (Except.error (MySQLError.IOException
          ("Failed to fetch result for query \"" ++
            (query ++ ("\": " ++ (resp.errorMsg ++ "\n"))))), trace)
      else
        (Except.ok (MySQLResult.countOnly resp.affectedRows), trace)
    | some handle =>
      match context with
      | none =>
        (Except.ok (MySQLResult.tabularRaw handle field_count result_streaming), trace)
      | some translate =>
        match buildFields translate resp.fields 0 field_count with
        | Except.error e => (Except.error e, trace)
        | Except.ok fields =>
          (Except.ok (MySQLResult.tabular handle fields result_streaming), trace)

/-- `MySQLConnection::Query(query, streaming)` — the two-argument overload,
which calls `QueryInternal` with a null context. -/
def Query (debugFlag : Bool) (resp : TransportResponse)
    (query : String) (streaming : MySQLResultStreaming) :
    Except MySQLError MySQLResult × List Event :=
  QueryInternal debugFlag resp none query streaming

/-- `MySQLConnection::Query(query, streaming, context)` — the overload taking a
`ClientContext`, which calls `QueryInternal` with that context. -/
def QueryWithContext (debugFlag : Bool) (resp : TransportResponse)
    (translate : MySQLFieldInfo → Except MySQLError Nat)
    (query : String) (streaming : MySQLResultStreaming) :
    Except MySQLError MySQLResult × List Event :=
  QueryInternal debugFlag resp (some translate) query streaming

/-- `MySQLConnection::Execute(query)`: calls
`QueryInternal(query, FORCE_MATERIALIZATION, nullptr)` and discards the
returned result. -/
def Execute (debugFlag : Bool) (resp : TransportResponse) (query : String) :
    Except MySQLError Unit × List Event :=
  match QueryInternal debugFlag resp none query
      MySQLResultStreaming.FORCE_MATERIALIZATION with
  | (r, trace) => (r.map (fun _ => ()), trace)

/-- The state of a `MySQLConnection` value: the member
`shared_ptr<OwnedMySQLConnection> connection` (`none` = null pointer, `some s`
= ownership of session `s`) and the member `string dsn`. -/
structure MySQLConnection where
  connection : Option Nat
  dsn : String
  deriving DecidableEq, Repr

/-- `MySQLConnection::IsOpen()`: `return connection.get();` — true exactly when
the `connection` pointer is non-null. -/
def MySQLConnection.IsOpen (c : MySQLConnection) : Bool :=
  c.connection.isSome

/-- `MySQLConnection::Close()`: `if (!IsOpen()) return; connection = nullptr;`. -/
def MySQLConnection.Close (c : MySQLConnection) : MySQLConnection :=
  if ¬ c.IsOpen then c
  else { c with connection := none }

/-- The move constructor `MySQLConnection(MySQLConnection &&other)`: the new
object's members are default-initialized (`connection = nullptr`, `dsn = ""`)
and then swapped with `other`'s.  Returns (the constructed object, `other`
after the move). -/
def MySQLConnection.moveConstruct (other : MySQLConnection) :
    MySQLConnection × MySQLConnection :=
  let constructed : MySQLConnection := { connection := none, dsn := "" }
  ({ constructed with connection := other.connection, dsn := other.dsn },
   { other with connection := constructed.connection, dsn := constructed.dsn })

/-- The move assignment `operator=(MySQLConnection &&other)`:
`std::swap(connection, other.connection); std::swap(dsn, other.dsn);`.
Returns (the target after the assignment, `other` after the assignment). -/
def MySQLConnection.moveAssign (target other : MySQLConnection) :
    MySQLConnection × MySQLConnection :=
  ({ target with connection := other.connection, dsn := other.dsn },
   { other with connection := target.connection, dsn := target.dsn })

/-- The destructor `~MySQLConnection()` calls `Close()`, which releases session
`s` exactly when the value still owns it.  Destroying two values `a` and `b`
therefore closes session `s` as many times as values own it. -/
def destroyCloseCount (a b : MySQLConnection) (s : Nat) : Nat :=
  (if a.connection = some s then 1 else 0) +
    (if b.connection = some s then 1 else 0)

/-- The field descriptors carried by a result: the resolved `fields` vector for
a fully-constructed tabular result, and empty for a count-only result or a
tabular result built without a translation context. -/
def MySQLResult.resultFields : MySQLResult → List MySQLField
  | MySQLResult.countOnly _ => []
  | MySQLResult.tabularRaw _ _ _ => []
  | MySQLResult.tabular _ fs _ => fs

/-- The streaming flag of a result: `none` for a count-only result. -/
def MySQLResult.streamingFlag : MySQLResult → Option Bool
  | MySQLResult.countOnly _ => none
  | MySQLResult.tabularRaw _ _ st => some st
  | MySQLResult.tabular _ _ st => some st

/-- Modelled from the spec: the `MySQLResult` destructor is not under `src/`;
per the spec, a tabular Result "holds the raw response handle (released exactly
once, on Result destruction, by returning it to the transport)" and a
count-only Result has "no external resource to release".  This gives the
handles released when a result value is destroyed. -/
def MySQLResult.destroyReleases : MySQLResult → List Nat
  | MySQLResult.countOnly _ => []
  | MySQLResult.tabularRaw h _ _ => [h]
  | MySQLResult.tabular h _ _ => [h]

/-- All releases of response handles attributable to one `QueryInternal` call
and the lifetime of its result: the `free` events emitted during the call
itself, followed by the releases performed when the returned result (if any)
is eventually destroyed.  When the call throws, no result exists, so only
in-call `free` events count. -/
def handlesReleased (out : Except MySQLError MySQLResult × List Event) :
    List Nat :=
  (out.2.filterMap (fun e =>
    match e with
    | Event.free h => some h
    | _ => none)) ++
  (match out.1 with
   | Except.ok r => r.destroyReleases
   | Except.error _ => [])

/-- Concrete transport fixture: a DML-style response — submission succeeds,
null handle, zero field count, 42 affected rows. -/
def respCountOnly : TransportResponse :=
  { submitResult := 0, errorMsg := "", responseHandle := none,
    fieldCount := 0, affectedRows := 42,
    fields := fun _ => { name := none, name_length := 0, serverType := 0 } }

/-- Concrete transport fixture: inconsistent response — submission succeeds,
null handle, but a nonzero field count. -/
def respMismatch : TransportResponse :=
  { submitResult := 0, errorMsg := "server gone away", responseHandle := none,
    fieldCount := 3, affectedRows := 0,
    fields := fun _ => { name := none, name_length := 0, serverType := 0 } }

/-- Concrete transport fixture: a one-column tabular response with handle 3. -/
def respTabular : TransportResponse :=
  { submitResult := 0, errorMsg := "", responseHandle := some 3,
    fieldCount := 1, affectedRows := 0,
    fields := fun _ => { name := some ("x"), name_length := 1, serverType := 7 } }

/-- Concrete transport fixture: submission fails with return code 1. -/
def respSubmitFail : TransportResponse :=
  { submitResult := 1, errorMsg := "syntax error", responseHandle := none,
    fieldCount := 0, affectedRows := 0,
    fields := fun _ => { name := none, name_length := 0, serverType := 0 } }

/-- Concrete transport fixture: a two-column tabular response with handle 7,
used to exhibit the handle leak on translation failure. -/
def respLeak : TransportResponse :=
  { submitResult := 0, errorMsg := "", responseHandle := some 7,
    fieldCount := 2, affectedRows := 0,
    fields := fun i => { name := some ("c"), name_length := 1, serverType := i } }

/-- Concrete translation capability that succeeds on every column. -/
def translateOk : MySQLFieldInfo → Except MySQLError Nat :=
  fun fi => Except.ok (fi.serverType + 100)

/-- Concrete translation capability that throws on every column, standing for
`MySQLUtils::FieldToLogicalType` raising an error on an unsupported type. -/
def translateFail : MySQLFieldInfo → Except MySQLError Nat :=
  fun _ => Except.error (MySQLError.IOException ("Unsupported MySQL type"))

lemma buildFields_ok_length (translate : MySQLFieldInfo → Except MySQLError Nat)
    (fieldInfo : Nat → MySQLFieldInfo) :
    ∀ (n i : Nat) (fs : List MySQLField),
      buildFields translate fieldInfo i n = Except.ok fs → fs.length = n := by
  intro n
  induction n with
  | zero =>
    intro i fs h
    simp only [buildFields] at h
    cases h
    rfl
  | succ k ih =>
    intro i fs h
    simp only [buildFields] at h
    split at h
    · exact absurd h (by simp)
    · split at h
      · exact absurd h (by simp)
      · cases h
        rename_i rest hrest
        simp [ih (i + 1) rest hrest]

lemma QueryInternal_trace (debugFlag : Bool) (resp : TransportResponse)
    (context : Option (MySQLFieldInfo → Except MySQLError Nat))
    (query : String) (streaming : MySQLResultStreaming) :
    (QueryInternal debugFlag resp context query streaming).2 =
      (if debugFlag then [Event.print (query ++ "\n")] else []) ++
        [Event.submit query] := by
  unfold QueryInternal MySQLExecute
  by_cases h : resp.submitResult = 0 <;>
    simp only [h, if_pos, if_neg, ne_eq, not_true_eq_false, not_false_eq_true,
      ite_true, ite_false] <;>
    (try split) <;> (try split) <;> (try split) <;> simp

lemma QueryInternal_flag_irrelevant (resp : TransportResponse)
    (context : Option (MySQLFieldInfo → Except MySQLError Nat))
    (query : String) (streaming : MySQLResultStreaming) (f g : Bool) :
    (QueryInternal f resp context query streaming).1 =
      (QueryInternal g resp context query streaming).1 := by
  unfold QueryInternal MySQLExecute
  by_cases h : resp.submitResult = 0
  · simp only [h]
    simp only [ne_eq, not_true_eq_false, if_false, ite_false, reduceIte]
    cases hr : resp.responseHandle with
    | none =>
      split
      · split <;> rfl
      · simp_all
    | some hd =>
      cases context with
      | none => rfl
      | some translate =>
        cases hb : buildFields translate resp.fields 0 resp.fieldCount <;>
          simp [hb]
  · simp [h]

/-- C2: for every Query call whose transport response has a null response
handle and a field count of zero, Query returns a count-only Result whose
count equals the transport's reported affected-row count and whose field
descriptor sequence is empty, regardless of whether a translation context was
supplied (the context is universally quantified). -/
theorem claim_C2_count_only_result (debugFlag : Bool) (resp : TransportResponse)
    (context : Option (MySQLFieldInfo → Except MySQLError Nat))
    (query : String) (streaming : MySQLResultStreaming)
    (hsub : resp.submitResult = 0) (hh : resp.responseHandle = none)
    (hfc : resp.fieldCount = 0) :
    (QueryInternal debugFlag resp context query streaming).1 =
      Except.ok (MySQLResult.countOnly resp.affectedRows) ∧
    (MySQLResult.countOnly resp.affectedRows).resultFields = [] := by
  constructor
  · unfold QueryInternal MySQLExecute
    simp [hsub, hh, hfc]
  · rfl

/-- Witness for C2: a DML-style response with 42 affected rows, queried with a
translation context supplied. -/
theorem claim_C2_witness :
    (QueryInternal false respCountOnly (some translateOk)
        "INSERT INTO t VALUES (1)" MySQLResultStreaming.FORCE_MATERIALIZATION).1 =
      Except.ok (MySQLResult.countOnly 42) ∧
    (MySQLResult.countOnly 42).resultFields = [] :=
  claim_C2_count_only_result false respCountOnly (some translateOk)
    "INSERT INTO t VALUES (1)" MySQLResultStreaming.FORCE_MATERIALIZATION
    rfl rfl rfl

/-- C3: for every Query call whose transport response has a null response
handle and a nonzero field count, Query fails with a ConnectionError
(`IOException`) and never returns any Result. -/
theorem claim_C3_null_handle_nonzero_count_error (debugFlag : Bool)
    (resp : TransportResponse)
    (context : Option (MySQLFieldInfo → Except MySQLError Nat))
    (query : String) (streaming : MySQLResultStreaming)
    (hsub : resp.submitResult = 0) (hh : resp.responseHandle = none)
    (hfc : resp.fieldCount ≠ 0) :
    (QueryInternal debugFlag resp context query streaming).1 =
      Except.error (MySQLError.IOException
        ("Failed to fetch result for query \"" ++
          (query ++ ("\": " ++ (resp.errorMsg ++ "\n"))))) ∧
    ∀ r, (QueryInternal debugFlag resp context query streaming).1 ≠
      Except.ok r := by
  have h1 : (QueryInternal debugFlag resp context query streaming).1 =
      Except.error (MySQLError.IOException
        ("Failed to fetch result for query \"" ++
          (query ++ ("\": " ++ (resp.errorMsg ++ "\n"))))) := by
    unfold QueryInternal MySQLExecute
    simp [hsub, hh, hfc]
  exact ⟨h1, fun r hr => by simp [h1] at hr⟩

/-- Witness for C3: a response with a null handle but field count 3. -/
theorem claim_C3_witness :
    (QueryInternal false respMismatch none ("SELECT 1")
        MySQLResultStreaming.ALLOW_STREAMING).1 =
      Except.error (MySQLError.IOException
        ("Failed to fetch result for query \"" ++
          ("SELECT 1" ++ ("\": " ++ ("server gone away" ++ "\n"))))) ∧
    ∀ r, (QueryInternal false respMismatch none ("SELECT 1")
        MySQLResultStreaming.ALLOW_STREAMING).1 ≠ Except.ok r :=
  claim_C3_null_handle_nonzero_count_error false respMismatch none ("SELECT 1")
    MySQLResultStreaming.ALLOW_STREAMING rfl rfl (by decide)

/-- C4: for every Query call producing a non-null tabular handle: with a
translation context whose per-column translation succeeds, the returned
tabular Result has exactly one field descriptor per transport-reported column;
and in both tabular cases (with or without a context) the Result's streaming
flag equals `(streamingPreference == ALLOW_STREAMING)`. -/
theorem claim_C4_tabular_result (debugFlag : Bool) (resp : TransportResponse)
    (translate : MySQLFieldInfo → Except MySQLError Nat)
    (query : String) (streaming : MySQLResultStreaming)
    (h : Nat) (fs : List MySQLField)
    (hsub : resp.submitResult = 0) (hh : resp.responseHandle = some h)
    (hfields : buildFields translate resp.fields 0 resp.fieldCount =
      Except.ok fs) :
    (QueryWithContext debugFlag resp translate query streaming).1 =
      Except.ok (MySQLResult.tabular h fs
        (streaming == MySQLResultStreaming.ALLOW_STREAMING)) ∧
    fs.length = resp.fieldCount ∧
    (Query debugFlag resp query streaming).1 =
      Except.ok (MySQLResult.tabularRaw h resp.fieldCount
        (streaming == MySQLResultStreaming.ALLOW_STREAMING)) ∧
    (MySQLResult.tabular h fs
        (streaming == MySQLResultStreaming.ALLOW_STREAMING)).streamingFlag =
      some (streaming == MySQLResultStreaming.ALLOW_STREAMING) ∧
    (MySQLResult.tabularRaw h resp.fieldCount
        (streaming == MySQLResultStreaming.ALLOW_STREAMING)).streamingFlag =
      some (streaming == MySQLResultStreaming.ALLOW_STREAMING) := by
  refine ⟨?_,
    buildFields_ok_length translate resp.fields resp.fieldCount 0 fs hfields,
    ?_, rfl, rfl⟩
  · unfold QueryWithContext QueryInternal MySQLExecute
    simp [hsub, hh, hfields]
  · unfold Query QueryInternal MySQLExecute
    simp [hsub, hh]

/-- Witness for C4: a one-column tabular response (handle 3, column named
`x` of server type 7), with a translation capability mapping type 7 to 107. -/
theorem claim_C4_witness :
    (QueryWithContext false respTabular translateOk ("SELECT x FROM t")
        MySQLResultStreaming.ALLOW_STREAMING).1 =
      Except.ok (MySQLResult.tabular 3 [MySQLField.mk ("x") 107] true) ∧
    [MySQLField.mk ("x") 107].length = 1 ∧
    (Query false respTabular ("SELECT x FROM t")
        MySQLResultStreaming.ALLOW_STREAMING).1 =
      Except.ok (MySQLResult.tabularRaw 3 1 true) ∧
    (MySQLResult.tabular 3 [MySQLField.mk ("x") 107] true).streamingFlag =
      some true ∧
    (MySQLResult.tabularRaw 3 1 true).streamingFlag = some true :=
  claim_C4_tabular_result false respTabular translateOk ("SELECT x FROM t")
    MySQLResultStreaming.ALLOW_STREAMING 3 [MySQLField.mk ("x") 107]
    rfl rfl rfl

/-- C5: `Close` is idempotent — closing twice equals closing once, `IsOpen`
is false after any `Close`, and `Close` on an already-closed connection leaves
the state unchanged. -/
theorem claim_C5_close_idempotent (c : MySQLConnection) :
    (c.Close).Close = c.Close ∧
    (c.Close).IsOpen = false ∧
    (c.IsOpen = false → c.Close = c) := by
  obtain ⟨conn, d⟩ := c
  cases conn <;>
    simp [MySQLConnection.Close, MySQLConnection.IsOpen]

/-- Witness for C5: an open connection owning session 1, and a closed one. -/
theorem claim_C5_witness :
    (MySQLConnection.Close
        (MySQLConnection.Close ⟨some 1, "db"⟩)) =
      MySQLConnection.Close ⟨some 1, "db"⟩ ∧
    (MySQLConnection.Close ⟨some 1, "db"⟩).IsOpen = false ∧
    MySQLConnection.Close ⟨none, "db"⟩ = ⟨none, "db"⟩ :=
  ⟨(claim_C5_close_idempotent ⟨some 1, "db"⟩).1,
   (claim_C5_close_idempotent ⟨some 1, "db"⟩).2.1,
   (claim_C5_close_idempotent ⟨none, "db"⟩).2.2 rfl⟩

/-- C6: `Execute(sql)` is observably equivalent to
`Query(sql, FORCE_MATERIALIZATION)` without a translation context with the
result discarded: same event trace (same transport interaction), same error
in exactly the failing cases, and `()` on success. -/
theorem claim_C6_execute_equiv_query (debugFlag : Bool)
    (resp : TransportResponse) (query : String) :
    Execute debugFlag resp query =
      ((Query debugFlag resp query
          MySQLResultStreaming.FORCE_MATERIALIZATION).1.map (fun _ => ()),
       (Query debugFlag resp query
          MySQLResultStreaming.FORCE_MATERIALIZATION).2) := rfl

/-- C7: when query submission fails at the transport level, both Query (with
or without a context) and Execute fail with a ConnectionError whose message
contains the submitted query text and the transport diagnostic, and no Result
is returned. -/
theorem claim_C7_submit_failure (debugFlag : Bool) (resp : TransportResponse)
    (context : Option (MySQLFieldInfo → Except MySQLError Nat))
    (query : String) (streaming : MySQLResultStreaming)
    (hsub : resp.submitResult ≠ 0) :
    ∃ m, (QueryInternal debugFlag resp context query streaming).1 =
           Except.error (MySQLError.IOException m) ∧
         (Execute debugFlag resp query).1 =
           Except.error (MySQLError.IOException m) ∧
         (∃ a b, m = a ++ (query ++ b)) ∧
         (∃ a b, m = a ++ (resp.errorMsg ++ b)) ∧
         ∀ r, (QueryInternal debugFlag resp context query streaming).1 ≠
           Except.ok r := by
  have h1 : (QueryInternal debugFlag resp context query streaming).1 =
      Except.error (MySQLError.IOException
        ("Failed to run query \"" ++
          (query ++ ("\": " ++ (resp.errorMsg ++ "\n"))))) := by
    unfold QueryInternal MySQLExecute
    simp [hsub]
  have h2 : (Execute debugFlag resp query).1 =
      Except.error (MySQLError.IOException
        ("Failed to run query \"" ++
          (query ++ ("\": " ++ (resp.errorMsg ++ "\n"))))) := by
    unfold Execute QueryInternal MySQLExecute
    simp [hsub, Except.map]
  refine ⟨_, h1, h2,
    ⟨"Failed to run query \"", "\": " ++ (resp.errorMsg ++ "\n"), rfl⟩,
    ⟨"Failed to run query \"" ++ (query ++ "\": "), "\n", by
      simp [String.append_assoc]⟩,
    fun r hr => by simp [h1] at hr⟩

/-- Witness for C7: a submission that fails with return code 1 and diagnostic
`syntax error`. -/
theorem claim_C7_witness :
    ∃ m, (QueryInternal false respSubmitFail none ("SELEC 1")
            MySQLResultStreaming.FORCE_MATERIALIZATION).1 =
           Except.error (MySQLError.IOException m) ∧
         (Execute false respSubmitFail ("SELEC 1")).1 =
           Except.error (MySQLError.IOException m) ∧
         (∃ a b, m = a ++ ("SELEC 1" ++ b)) ∧
         (∃ a b, m = a ++ (respSubmitFail.errorMsg ++ b)) ∧
         ∀ r, (QueryInternal false respSubmitFail none ("SELEC 1")
            MySQLResultStreaming.FORCE_MATERIALIZATION).1 ≠ Except.ok r :=
  claim_C7_submit_failure false respSubmitFail none ("SELEC 1")
    MySQLResultStreaming.FORCE_MATERIALIZATION (by decide)

/-- C8: the debug-print flag defaults to off; with the flag on, every Query
or Execute call emits the submitted SQL text to the diagnostic sink exactly
once, before transport submission (the trace is exactly one print event
followed by the submit event); and the Result or error returned is identical
whether the flag is on or off. -/
theorem claim_C8_debug_flag (resp : TransportResponse)
    (context : Option (MySQLFieldInfo → Except MySQLError Nat))
    (query : String) (streaming : MySQLResultStreaming) :
    debug_mysql_print_queries_default = false ∧
    (QueryInternal true resp context query streaming).2 =
      [Event.print (query ++ "\n"), Event.submit query] ∧
    (QueryInternal false resp context query streaming).2 =
      [Event.submit query] ∧
    (Execute true resp query).2 =
      [Event.print (query ++ "\n"), Event.submit query] ∧
    (Execute false resp query).2 = [Event.submit query] ∧
    (QueryInternal true resp context query streaming).1 =
      (QueryInternal false resp context query streaming).1 ∧
    (Execute true resp query).1 = (Execute false resp query).1 := by
  refine ⟨rfl, ?_, ?_, ?_, ?_,
    QueryInternal_flag_irrelevant resp context query streaming true false, ?_⟩
  · simpa using QueryInternal_trace true resp context query streaming
  · simpa using QueryInternal_trace false resp context query streaming
  · simpa using QueryInternal_trace true resp none query
      MySQLResultStreaming.FORCE_MATERIALIZATION
  · simpa using QueryInternal_trace false resp none query
      MySQLResultStreaming.FORCE_MATERIALIZATION
  · show ((QueryInternal true resp none query
        MySQLResultStreaming.FORCE_MATERIALIZATION).1.map (fun _ => ())) =
      ((QueryInternal false resp none query
        MySQLResultStreaming.FORCE_MATERIALIZATION).1.map (fun _ => ()))
    rw [QueryInternal_flag_irrelevant resp none query
      MySQLResultStreaming.FORCE_MATERIALIZATION true false]

/-- C10: when the response handle is null, the supplied translation context is
never consulted — the three-argument Query returns exactly the same outcome
(result and trace) as the two-argument Query. -/
theorem claim_C10_context_unused_when_null (debugFlag : Bool)
    (resp : TransportResponse)
    (translate : MySQLFieldInfo → Except MySQLError Nat)
    (query : String) (streaming : MySQLResultStreaming)
    (hh : resp.responseHandle = none) :
    QueryWithContext debugFlag resp translate query streaming =
      Query debugFlag resp query streaming := by
  unfold QueryWithContext Query QueryInternal MySQLExecute
  by_cases h : resp.submitResult = 0 <;> simp [h, hh]

/-- Witness for C10: a DDL-style null-handle response queried with and
without a translation context. -/
theorem claim_C10_witness :
    QueryWithContext false respCountOnly translateOk ("DROP TABLE t")
        MySQLResultStreaming.ALLOW_STREAMING =
      Query false respCountOnly ("DROP TABLE t")
        MySQLResultStreaming.ALLOW_STREAMING :=
  claim_C10_context_unused_when_null false respCountOnly translateOk
    "DROP TABLE t" MySQLResultStreaming.ALLOW_STREAMING rfl

/-- Counterexample for C1 as stated: move-assigning a closed Connection A
into an open Connection B (session 5) swaps the two states, so afterwards
A.IsOpen() is `true`, not `false` as the claim requires for every move. -/
theorem claim_C1_counterexample :
    MySQLConnection.IsOpen
        ((MySQLConnection.moveAssign ⟨some 5, "b"⟩ ⟨none, "a"⟩).2) = true ∧
    MySQLConnection.IsOpen ⟨none, "a"⟩ = false := by decide

/-- C1 (amended): after move-construction of B from A, A is closed and B has
A's prior state; after move-assignment the two states are swapped — B.IsOpen()
equals A's prior state and A.IsOpen() equals B's prior state; in both cases,
when B did not already own the transferred session, destroying both closes it
exactly once. -/
theorem claim_C1_amended_move_semantics (a b : MySQLConnection) (s : Nat) :
    (MySQLConnection.moveConstruct a).1.IsOpen = a.IsOpen ∧
    (MySQLConnection.moveConstruct a).2.IsOpen = false ∧
    (MySQLConnection.moveAssign b a).1.IsOpen = a.IsOpen ∧
    (MySQLConnection.moveAssign b a).2.IsOpen = b.IsOpen ∧
    (a.connection = some s →
      destroyCloseCount (MySQLConnection.moveConstruct a).1
        (MySQLConnection.moveConstruct a).2 s = 1) ∧
    (a.connection = some s → b.connection ≠ some s →
      destroyCloseCount (MySQLConnection.moveAssign b a).1
        (MySQLConnection.moveAssign b a).2 s = 1) := by
  refine ⟨rfl, rfl, rfl, rfl, ?_, ?_⟩
  · intro ha
    simp [destroyCloseCount, MySQLConnection.moveConstruct, ha]
  · intro ha hb
    simp [destroyCloseCount, MySQLConnection.moveAssign, ha, hb]

/-- Witness for C1 (amended): A owns session 3, B owns session 4; the
transferred session 3 is closed exactly once in both move forms. -/
theorem claim_C1_witness :
    destroyCloseCount (MySQLConnection.moveConstruct ⟨some 3, "x"⟩).1
        (MySQLConnection.moveConstruct ⟨some 3, "x"⟩).2 3 = 1 ∧
    destroyCloseCount
        (MySQLConnection.moveAssign ⟨some 4, "y"⟩ ⟨some 3, "x"⟩).1
        (MySQLConnection.moveAssign ⟨some 4, "y"⟩ ⟨some 3, "x"⟩).2 3 = 1 :=
  ⟨(claim_C1_amended_move_semantics ⟨some 3, "x"⟩ ⟨some 4, "y"⟩ 3).2.2.2.2.1
      rfl,
   (claim_C1_amended_move_semantics ⟨some 3, "x"⟩ ⟨some 4, "y"⟩ 3).2.2.2.2.2
      rfl (by decide)⟩

/-- C9 (code bug): on a two-column tabular response (handle 7) whose type
translation throws on the first column, `QueryInternal` propagates the error
without ever releasing the raw response handle — no `free` event is emitted
during the call and no Result exists to release it on destruction — so the
handle is released zero times, not exactly once.  By contrast, when
construction succeeds the handle is released exactly once (by the Result's
destruction). -/
theorem claim_C9_leak_on_translation_failure :
    (QueryWithContext false respLeak translateFail ("SELECT a, b FROM t")
        MySQLResultStreaming.ALLOW_STREAMING).1 =
      Except.error (MySQLError.IOException ("Unsupported MySQL type")) ∧
    handlesReleased (QueryWithContext false respLeak translateFail
        "SELECT a, b FROM t" MySQLResultStreaming.ALLOW_STREAMING) = [] ∧
    respLeak.responseHandle = some 7 ∧
    handlesReleased (QueryWithContext false respTabular translateOk
        "SELECT x FROM t" MySQLResultStreaming.ALLOW_STREAMING) = [3] :=
  ⟨rfl, rfl, rfl, rfl⟩

end MySQLSpec
